import Mathlib

/-!
Shallow embedding of the Telegram banking-bot webhook in src/main.py:
the conversational state machine (telegram_webhook), the session-store
helpers (get_user_state, set_user_state, store_temp_data, get_temp_data,
store_user_session, get_user_session, clear_user_session), the data-store
queries (UserManager.get_user_by_account, UserManager.get_user_transactions),
the transaction formatter (TelegramHandler.format_transaction_message) and
the retrying Answer-Service client (call_gemini_api).

Time is modelled as a natural-number clock (seconds); SQL `expires_at > NOW()`
becomes `now < expires_at`.  The PostgreSQL tables user_sessions (primary key
chat_id) and temp_data (primary key (chat_id, key)) are modelled as maps,
matching their upsert (`INSERT ... ON CONFLICT ... DO UPDATE`) semantics.
-/

abbrev ChatId := Int

/-- One row of the user_sessions table: nullable state label, nullable
serialized user_data payload, and an expiry instant. -/
structure SessionRow where
  state : Option String
  user_data : Option String
  expires_at : Nat
deriving DecidableEq

/-- One row of the temp_data table for a (chat_id, key) pair. -/
structure TempRow where
  value : String
  expires_at : Nat
deriving DecidableEq

/-- The session store: the user_sessions table keyed by chat_id and the
temp_data table keyed by (chat_id, key). -/
structure Store where
  sessions : ChatId → Option SessionRow
  temp : ChatId → String → Option TempRow

/-- A row of the users table, as selected by get_user_by_account. -/
structure User where
  customer_id : Nat
  name : String
  account_number : String
  ifsc_code : String
  account_city : String
  account_type : String
  status : String
  contact : String
  password : String
  created_at : String
deriving DecidableEq

/-- A row of the transactions table, in the column order of the
CREATE TABLE in src/main.py (so SELECT * yields exactly these fields).
Decimal amounts are carried as hundredths (paise). -/
structure Txn where
  transaction_id : Nat
  customer_id : Nat
  account_number : String
  date_time : Nat
  amount : Nat
  transaction_type : String
  method : String
  description : String
  balance_after_transaction : Nat
deriving DecidableEq

/-- The relational data store consumed by the webhook. -/
structure Db where
  users : List User
  transactions : List Txn

/-- Python-level exceptions that the webhook handler can observe. -/
inductive PyErr
  | nameError
  | keyError
deriving DecidableEq

/-- Observable effects of one webhook invocation: outbound sendMessage
calls in order, the number of Answer-Service (Gemini) calls and the number
of transaction-listing queries issued. -/
structure Effects where
  msgs : List (ChatId × String)
  gemini_calls : Nat
  txn_queries : Nat
deriving DecidableEq

def noEffects : Effects := { msgs := [], gemini_calls := 0, txn_queries := 0 }

def sendMsg (eff : Effects) (chat : ChatId) (text : String) : Effects :=
  { eff with msgs := eff.msgs ++ [(chat, text)] }

/-- The transport-level outcome of one webhook delivery: either the
structured acknowledgment dict returned by the handler, or the 500 response
produced by the logging middleware when an exception escapes the handler. -/
inductive Outcome
  | ack (status : String)
  | serverError
deriving DecidableEq

/-- Python str.strip(): drop leading and trailing whitespace. -/
def pyStrip (s : String) : String :=
  String.mk (((s.data.dropWhile Char.isWhitespace).reverse.dropWhile Char.isWhitespace).reverse)

/-- Python str.startswith(pat). -/
def pyStarts (s pat : String) : Bool :=
  pat.data.isPrefixOf s.data

/-- Python str.replace(pat, ""): remove every (left-to-right, non-overlapping)
occurrence of pat; an empty pattern is a no-op. -/
def removeAll (pat : List Char) : List Char → List Char
  | [] => []
  | c :: rest =>
    if h : pat ≠ [] ∧ pat.isPrefixOf (c :: rest) then
      removeAll pat ((c :: rest).drop pat.length)
    else
      c :: removeAll pat rest
termination_by l => l.length
decreasing_by
  · simp only [List.length_drop, List.length_cons]
    have : pat.length ≠ 0 := fun hz => h.1 (List.eq_nil_of_length_eq_zero hz)
    omega
  · simp only [List.length_cons]
    omega

def pyReplaceEmpty (s pat : String) : String :=
  String.mk (removeAll pat.data s.data)

/-- In src/main.py the name `json` is never imported, so evaluating
`json.dumps(...)` raises NameError at run time. -/
def json_dumps (_ : User) : Except PyErr String :=
  Except.error PyErr.nameError

/-- In src/main.py the name `json` is never imported, so evaluating
`json.loads(...)` raises NameError at run time. -/
def json_loads (_ : Option String) : Except PyErr User :=
  Except.error PyErr.nameError

/-- UserManager.get_user_by_account: SELECT ... FROM users WHERE
account_number = %s AND status = ACTIVE, fetchone. -/
def get_user_by_account (db : Db) (account_number : String) : Option User :=
  db.users.find? (fun u => u.account_number == account_number && u.status == ("ACTIVE"))

/-- Descending insertion by date_time (models ORDER BY date_time DESC). -/
def insertDesc (t : Txn) : List Txn → List Txn
  | [] => [t]
  | u :: us => if u.date_time ≤ t.date_time then t :: u :: us else u :: insertDesc t us

def sortDesc : List Txn → List Txn
  | [] => []
  | t :: ts => insertDesc t (sortDesc ts)

/-- UserManager.get_user_transactions: SELECT * FROM transactions WHERE
customer_id = %s ORDER BY date_time DESC LIMIT %s. -/
def get_user_transactions (db : Db) (customer_id : Nat) (limit : Nat) : List Txn :=
  (sortDesc (db.transactions.filter (fun t => t.customer_id == customer_id))).take limit

def pad2 (n : Nat) : String :=
  if n < 10 then "0" ++ toString n else toString n

/-- Gregorian civil date from days since 1970-01-01 (valid for nonnegative days). -/
def civilFromDays (z0 : Nat) : Nat × Nat × Nat :=
  let z := z0 + 719468
  let era := z / 146097
  let doe := z % 146097
  let yoe := (doe - doe / 1460 + doe / 36524 - doe / 146096) / 365
  let y := yoe + era * 400
  let doy := doe - (365 * yoe + yoe / 4 - yoe / 100)
  let mp := (5 * doy + 2) / 153
  let d := doy - (153 * mp + 2) / 5 + 1
  let m := if mp < 10 then mp + 3 else mp - 9
  (if m ≤ 2 then y + 1 else y, m, d)

/-- Python datetime.strftime with format Y-m-d H:M:S, over an epoch-seconds clock. -/
def fmtTimestamp (t : Nat) : String :=
  let days := t / 86400
  let secs := t % 86400
  let c := civilFromDays days
  toString c.1 ++ "-" ++ pad2 c.2.1 ++ "-" ++ pad2 c.2.2 ++ " " ++
    pad2 (secs / 3600) ++ ":" ++ pad2 ((secs % 3600) / 60) ++ ":" ++ pad2 (secs % 60)

/-- Decimal(10,2) rendering used by the f-strings. -/
def showDec2 (n : Nat) : String :=
  toString (n / 100) ++ "." ++ pad2 (n % 100)

/-- One record block of TelegramHandler.format_transaction_message. -/
def txnBlock (t : Txn) : String :=
  "Transaction ID: " ++ toString t.transaction_id ++ "\n" ++
  "Amount: ₹" ++ showDec2 t.amount ++ "\n" ++
  "Type: " ++ t.transaction_type ++ "\n" ++
  "Method: " ++ t.method ++ "\n" ++
  "Description: " ++ t.description ++ "\n" ++
  "Balance: ₹" ++ showDec2 t.balance_after_transaction ++ "\n" ++
  "Date: " ++ fmtTimestamp t.date_time ++ "\n\n"

/-- TelegramHandler.format_transaction_message. -/
def format_transaction_message (ts : List Txn) : String :=
  if ts.isEmpty then "No recent transactions found."
  else ts.foldl (fun m t => m ++ txnBlock t) ("Recent Transactions:\n\n")

/-- get_user_state: SELECT state FROM user_sessions WHERE chat_id = %s AND
expires_at > NOW(); returns the (nullable) state column, else None. -/
def get_user_state (st : Store) (chat : ChatId) (now : Nat) : Option String :=
  (st.sessions chat).bind (fun r => if now < r.expires_at then r.state else none)

/-- set_user_state: upsert of (chat_id, state, expires_at = now + 1 hour);
the ON CONFLICT update leaves user_data untouched. -/
def set_user_state (st : Store) (chat : ChatId) (s : String) (now : Nat) : Store :=
  { st with sessions := fun c =>
      if c = chat then
        some (match st.sessions chat with
          | some r => { r with state := some s, expires_at := now + 3600 }
          | none => { state := some s, user_data := none, expires_at := now + 3600 })
      else st.sessions c }

/-- store_temp_data: upsert of (chat_id, key, value, expires_at = now + 5 minutes). -/
def store_temp_data (st : Store) (chat : ChatId) (key value : String) (now : Nat) : Store :=
  { st with temp := fun c k =>
      if c = chat ∧ k = key then some { value := value, expires_at := now + 300 }
      else st.temp c k }

/-- get_temp_data: SELECT value FROM temp_data WHERE chat_id = %s AND key = %s
AND expires_at > NOW(). -/
def get_temp_data (st : Store) (chat : ChatId) (key : String) (now : Nat) : Option String :=
  (st.temp chat key).bind (fun r => if now < r.expires_at then some r.value else none)

/-- store_user_session: json.dumps the payload (which raises NameError, see
json_dumps) then upsert (chat_id, user_data, expires_at = now + 1 day);
the ON CONFLICT update leaves the state column untouched. -/
def store_user_session (st : Store) (chat : ChatId) (user : User) (now : Nat) :
    Except PyErr Store :=
  match json_dumps user with
  | Except.error e => Except.error e
  | Except.ok s =>
    let newRow : SessionRow :=
      match st.sessions chat with
      | some r => { r with user_data := some s, expires_at := now + 86400 }
      | none => { state := none, user_data := some s, expires_at := now + 86400 }
    Except.ok { st with sessions := fun c => if c = chat then some newRow else st.sessions c }

/-- get_user_session: SELECT user_data FROM user_sessions WHERE chat_id = %s AND
expires_at > NOW(); an absent row yields None, a present row reaches
json.loads(result[0]) which raises NameError (see json_loads). -/
def get_user_session (st : Store) (chat : ChatId) (now : Nat) :
    Except PyErr (Option User) :=
  match st.sessions chat with
  | none => Except.ok none
  | some r =>
    if now < r.expires_at then (json_loads r.user_data).map some
    else Except.ok none

/-- clear_user_session: DELETE the user_sessions row of the chat and all of its
temp_data rows. -/
def clear_user_session (st : Store) (chat : ChatId) : Store :=
  { sessions := fun c => if c = chat then none else st.sessions c,
    temp := fun c k => if c = chat then none else st.temp c k }

/-- verify_password: direct string equality of input and stored password. -/
def verify_password (input_password stored_password : String) : Bool :=
  input_password == stored_password

/-- The outcome of one requests.post to the Gemini endpoint: a raised
requests.exceptions.RequestException, or a response with a status code and
an optional "content" field in its JSON body. -/
inductive HttpResult
  | exn
  | resp (status : Nat) (content : Option String)
deriving DecidableEq

/-- Trace of one call_gemini_api run: the returned text (or an escaped
exception), the number of HTTP posts made, and the time.sleep delays in order. -/
structure GeminiRun where
  result : Except PyErr String
  posts : Nat
  sleeps : List Nat

/-- The retry loop body of call_gemini_api, from a given attempt index.
A 200 response returns its "content" field (raising KeyError when absent);
a RequestException on the last attempt returns the error-processing text;
other failures sleep 2 ^ attempt and continue; falling off the loop returns
the service-unavailable text. -/
def geminiAttempt (g : Nat → HttpResult) (retries attempt : Nat) : GeminiRun :=
  if attempt < retries then
    match g attempt with
    | HttpResult.exn =>
      if attempt = retries - 1 then
        { result := Except.ok ("Error processing query. Please try again later."),
          posts := 1, sleeps := [] }
      else
        let rest := geminiAttempt g retries (attempt + 1)
        { result := rest.result, posts := rest.posts + 1, sleeps := 2 ^ attempt :: rest.sleeps }
    | HttpResult.resp status content =>
      if status = 200 then
        match content with
        | some c => { result := Except.ok c, posts := 1, sleeps := [] }
        | none => { result := Except.error PyErr.keyError, posts := 1, sleeps := [] }
      else
        let rest := geminiAttempt g retries (attempt + 1)
        { result := rest.result, posts := rest.posts + 1, sleeps := 2 ^ attempt :: rest.sleeps }
  else
    { result := Except.ok ("Service temporarily unavailable."), posts := 0, sleeps := [] }
termination_by retries - attempt

/-- call_gemini_api with its default retries=3. -/
def call_gemini_api (g : Nat → HttpResult) : GeminiRun :=
  geminiAttempt g 3 0

/-- Result of the handler body: a normal return with a status string, or an
escaped exception together with the chat id if it was already bound (the
except block references chat_id, which is unbound when the exception was
raised while extracting it). -/
inductive BodyResult
  | ok (st : Store) (eff : Effects) (status : String)
  | exn (st : Store) (eff : Effects) (chatBound : Option ChatId)

/-- An inbound Telegram update: optional message, whose chat id and text may
be absent (absent chat models a KeyError on update["message"]["chat"]["id"],
absent text models the .get("text", "") default). -/
structure TgMessage where
  chat : Option ChatId
  text : Option String
deriving DecidableEq

structure Update where
  message : Option TgMessage
deriving DecidableEq

def startMsg : String := "Welcome to BankBot!\nPlease enter your account number:"
def accountVerifiedMsg : String := "Account verified! Please enter your password:"
def invalidAccountMsg : String :=
  "Invalid account number. Please try again or type /start to restart."
def sessionExpiredBeginMsg : String := "Session expired. Please type /start to begin again."
def invalidPasswordMsg : String := "Invalid password. Please type /start to try again."
def sessionExpiredAuthMsg : String := "Session expired. Please type /start to authenticate."
def provideQueryMsg : String := "Please provide your query after /query command"
def unauthorizedMsg : String := "Please authenticate first using /start command"
def genericErrorMsg : String := "An error occurred. Please try again."

/-- The authentication-success reply built at lines 210-218 of src/main.py. -/
def welcomeMsg (user : User) : String :=
  "Authentication successful!\n\n" ++
  "Welcome " ++ user.name ++ "\n" ++
  "Account: " ++ user.account_number ++ "\n" ++
  "Type: " ++ user.account_type ++ "\n\n" ++
  "Available commands:\n" ++
  "/transactions - View recent transactions\n" ++
  "/query - Ask any banking related questions"

/-- The body of telegram_webhook from the point where chat_id and the
stripped text are bound (lines 172-269 of src/main.py). -/
def handleText (db : Db) (g : Nat → HttpResult) (st : Store) (now : Nat)
    (chat_id : ChatId) (text : String) : BodyResult :=
  let user_state := get_user_state st chat_id now
  if text = "/start" then
    let st1 := clear_user_session st chat_id
    let eff := sendMsg noEffects chat_id startMsg
    let st2 := set_user_state st1 chat_id ("awaiting_account") now
    BodyResult.ok st2 eff ("awaiting_account")
  else if user_state = some ("awaiting_account") then
    match get_user_by_account db text with
    | some _user =>
      let st1 := store_temp_data st chat_id ("account_number") text now
      let st2 := set_user_state st1 chat_id ("awaiting_password") now
      BodyResult.ok st2 (sendMsg noEffects chat_id accountVerifiedMsg) ("awaiting_password")
    | none =>
      BodyResult.ok st (sendMsg noEffects chat_id invalidAccountMsg) ("invalid_account")
  else if user_state = some ("awaiting_password") then
    let account_number := (get_temp_data st chat_id ("account_number") now).getD ("")
    if account_number = "" then
      BodyResult.ok st (sendMsg noEffects chat_id sessionExpiredBeginMsg) ("session_expired")
    else
      match get_user_by_account db account_number with
      | some user =>
        if verify_password text user.password then
          let st1 := set_user_state st chat_id ("authenticated") now
          match store_user_session st1 chat_id user now with
          | Except.error _ => BodyResult.exn st1 noEffects (some chat_id)
          | Except.ok st2 =>
            BodyResult.ok st2 (sendMsg noEffects chat_id (welcomeMsg user)) ("authenticated")
        else
          let eff := sendMsg noEffects chat_id invalidPasswordMsg
          let st1 := clear_user_session st chat_id
          BodyResult.ok st1 eff ("invalid_password")
      | none =>
        let eff := sendMsg noEffects chat_id invalidPasswordMsg
        let st1 := clear_user_session st chat_id
        BodyResult.ok st1 eff ("invalid_password")
  else if user_state = some ("authenticated") then
    match get_user_session st chat_id now with
    | Except.error _ => BodyResult.exn st noEffects (some chat_id)
    | Except.ok none =>
      BodyResult.ok st (sendMsg noEffects chat_id sessionExpiredAuthMsg) ("session_expired")
    | Except.ok (some user_data) =>
      if pyStarts text ("/transactions") then
        let txns := get_user_transactions db user_data.customer_id 5
        let eff := { sendMsg noEffects chat_id (format_transaction_message txns) with
                     txn_queries := 1 }
        BodyResult.ok st eff ("transactions_fetched")
      else if pyStarts text ("/query") then
        let query := pyStrip (pyReplaceEmpty text ("/query"))
        if query ≠ "" then
          let run := call_gemini_api g
          let eff0 : Effects := { msgs := [], gemini_calls := 1, txn_queries := 1 }
          match run.result with
          | Except.error _ => BodyResult.exn st eff0 (some chat_id)
          | Except.ok resp =>
            BodyResult.ok st (sendMsg eff0 chat_id resp) ("query_processed")
        else
          BodyResult.ok st (sendMsg noEffects chat_id provideQueryMsg) ("empty_query")
      else
        BodyResult.ok st (sendMsg noEffects chat_id unauthorizedMsg) ("unauthorized")
  else
    BodyResult.ok st (sendMsg noEffects chat_id unauthorizedMsg) ("unauthorized")

/-- telegram_webhook up to the try/except: extract chat id and text. -/
def webhookBody (db : Db) (g : Nat → HttpResult) (st : Store) (now : Nat)
    (upd : Update) : BodyResult :=
  match upd.message with
  | none => BodyResult.ok st noEffects ("no_message")
  | some msg =>
    match msg.chat with
    | none => BodyResult.exn st noEffects none
    | some chat_id => handleText db g st now chat_id (pyStrip (msg.text.getD ("")))

/-- The try/except of telegram_webhook plus the logging middleware: a caught
exception sends the generic error reply and returns the error acknowledgment,
except when chat_id is unbound, in which case the except block itself raises
and the middleware answers with a 500. -/
def wrapBody : BodyResult → Store × Effects × Outcome
  | BodyResult.ok st1 eff s => (st1, eff, Outcome.ack s)
  | BodyResult.exn st1 eff (some c) =>
    (st1, sendMsg eff c genericErrorMsg, Outcome.ack ("error"))
  | BodyResult.exn st1 eff none => (st1, eff, Outcome.serverError)

/-- One full webhook delivery: handler body under its try/except, behind the
middleware. -/
def telegram_webhook (db : Db) (g : Nat → HttpResult) (st : Store) (now : Nat)
    (upd : Update) : Store × Effects × Outcome :=
  wrapBody (webhookBody db g st now upd)

/-! Concrete fixtures used by the counterexample and evaluation theorems. -/

def u1 : User :=
  { customer_id := 1, name := "Alice", account_number := "AC100",
    ifsc_code := "IFSC0001", account_city := "Metropolis", account_type := "SAVINGS",
    status := "ACTIVE", contact := "9999999999", password := "pw1",
    created_at := "2024-01-01T00:00:00" }

def db1 : Db := { users := [u1], transactions := [] }

def st0 : Store := { sessions := fun _ => none, temp := fun _ _ => none }

def g0 : Nat → HttpResult := fun _ => HttpResult.exn

def updOf (chat : ChatId) (t : String) : Update :=
  { message := some { chat := some chat, text := some t } }

/-- The three-message login sequence of the spec: slash-start, account, password. -/
def loginStep1 : Store × Effects × Outcome := telegram_webhook db1 g0 st0 0 (updOf 1 ("/start"))

def loginStep2 : Store × Effects × Outcome :=
  telegram_webhook db1 g0 loginStep1.1 1 (updOf 1 ("AC100"))

def loginStep3 : Store × Effects × Outcome :=
  telegram_webhook db1 g0 loginStep2.1 2 (updOf 1 ("pw1"))

def loginStep3bad : Store × Effects × Outcome :=
  telegram_webhook db1 g0 loginStep2.1 2 (updOf 1 ("wrong"))

/-- The session invariant stated by the spec: the authenticated payload is
non-null exactly when the session state is AUTHENTICATED. -/
def session_invariant (st : Store) (chat : ChatId) (now : Nat) : Prop :=
  ((st.sessions chat).bind SessionRow.user_data ≠ none) ↔
    (get_user_state st chat now = some ("authenticated"))

/-- A store whose chat 1 is in a live awaiting_password session with no
scratch account number (the 5-minute scratch row has already been dropped). -/
def stP : Store :=
  { sessions := fun c =>
      if c = 1 then
        some { state := some ("awaiting_password"), user_data := none, expires_at := 100 }
      else none,
    temp := fun _ _ => none }

/-- An update whose message has a text but no chat object, so that
update["message"]["chat"]["id"] raises KeyError before chat_id is bound. -/
def updNoChat : Update := { message := some { chat := none, text := some ("hi") } }

/-- Newest-first ordering on transaction records. -/
def dateGE (a b : Txn) : Prop := b.date_time ≤ a.date_time

/-- Sequential concatenation of the per-record blocks. -/
def joinBlocks : List Txn → String
  | [] => ""
  | t :: ts => txnBlock t ++ joinBlocks ts

def txOld : Txn :=
  { transaction_id := 7, customer_id := 1, account_number := "AC100", date_time := 100,
    amount := 5000, transaction_type := "Debit", method := "UPI", description := "tea",
    balance_after_transaction := 95000 }

def txNew : Txn :=
  { transaction_id := 8, customer_id := 1, account_number := "AC100", date_time := 200,
    amount := 2500, transaction_type := "Credit", method := "NEFT", description := "refund",
    balance_after_transaction := 97500 }

def db2 : Db := { users := [u1], transactions := [txOld, txNew] }

/-- A store whose chat 1 holds a live AUTHENTICATED session with a stored
payload (as the SessionManager in setup_database.py would produce). -/
def stA : Store :=
  { sessions := fun c =>
      if c = 1 then
        some { state := some ("authenticated"), user_data := some ("stored-payload"),
               expires_at := 1000 }
      else none,
    temp := fun _ _ => none }

/-- C1: for the active account AC100 with stored password pw1, the sequence
slash-start, AC100, pw1 does reach session state authenticated, but the
authenticated payload is never stored: store_user_session raises NameError
(json is not imported in src/main.py), the handler answers with the generic
error reply and status error instead of the welcome message.  The same
sequence with a wrong password does clear the session and reply
invalid-password as claimed. -/
theorem c1_login_payload_lost :
    (get_user_state loginStep3.1 1 2 = some ("authenticated") ∧
      (loginStep3.1.sessions 1).bind SessionRow.user_data = none ∧
      loginStep3.2.1.msgs = [(1, genericErrorMsg)] ∧
      loginStep3.2.2 = Outcome.ack ("error")) ∧
    (loginStep3bad.1.sessions 1 = none ∧
      loginStep3bad.1.temp 1 ("account_number") = none ∧
      loginStep3bad.2.1.msgs = [(1, invalidPasswordMsg)] ∧
      loginStep3bad.2.2 = Outcome.ack ("invalid_password")) := by
  decide

/-- C2: after the correct-password message of the login sequence is processed,
the invariant is violated: the state column was already set to authenticated
by set_user_state, but store_user_session failed (NameError on json.dumps)
before the payload could be written, so the payload is null while the state is
AUTHENTICATED. -/
theorem c2_invariant_broken : ¬ session_invariant loginStep3.1 1 2 := by
  unfold session_invariant
  decide

/-- C3: from any store, any clock and any chat id, the message slash-start
clears the session row and all scratch rows of that chat, re-creates the
session in state awaiting_account with a null payload, and sends exactly one
reply (the welcome prompt). -/
theorem c3_start_always_resets (db : Db) (g : Nat → HttpResult) (st : Store) (now : Nat)
    (chat : ChatId) :
    get_user_state (telegram_webhook db g st now (updOf chat ("/start"))).1 chat now
        = some ("awaiting_account") ∧
    ((telegram_webhook db g st now (updOf chat ("/start"))).1.sessions chat).bind
        SessionRow.user_data = none ∧
    (∀ k, get_temp_data (telegram_webhook db g st now (updOf chat ("/start"))).1 chat k now
        = none) ∧
    (telegram_webhook db g st now (updOf chat ("/start"))).2.1.msgs = [(chat, startMsg)] ∧
    (telegram_webhook db g st now (updOf chat ("/start"))).2.2
        = Outcome.ack ("awaiting_account") := by
  have hw : telegram_webhook db g st now (updOf chat ("/start")) =
      (set_user_state (clear_user_session st chat) chat ("awaiting_account") now,
        sendMsg noEffects chat startMsg, Outcome.ack ("awaiting_account")) := rfl
  rw [hw]
  have hlt : now < now + 3600 := by omega
  refine ⟨?_, ?_, ?_, ?_, ?_⟩
  · simp [get_user_state, set_user_state, clear_user_session, hlt]
  · simp [set_user_state, clear_user_session]
  · intro k
    simp [get_temp_data, set_user_state, clear_user_session]
  · simp [sendMsg, noEffects]
  · rfl

/-- C4 counterexample: command recognition is case-sensitive.  From an empty
store, the trimmed uppercase variant of slash-start is answered with the
please-authenticate-first reply (status unauthorized), while the lowercase
form starts the login flow, so the two are not handled identically. -/
theorem c4_case_sensitivity_counterexample :
    (telegram_webhook db1 g0 st0 0 (updOf 1 (" /START "))).2 ≠
      (telegram_webhook db1 g0 st0 0 (updOf 1 ("/start"))).2 := by
  decide

/-- C4 amended: whitespace trimming does hold: two inbound texts with the same
stripped form are handled identically (the handler strips the text before any
comparison); letter-case variants of a command, however, are not recognized. -/
theorem c4_trimming_invariant (db : Db) (g : Nat → HttpResult) (st : Store) (now : Nat)
    (chat : ChatId) (s t : String) (h : pyStrip s = pyStrip t) :
    telegram_webhook db g st now (updOf chat s) = telegram_webhook db g st now (updOf chat t) := by
  show wrapBody (handleText db g st now chat (pyStrip s)) =
    wrapBody (handleText db g st now chat (pyStrip t))
  rw [h]

/-- C4 witness: a padded lowercase slash-start is handled exactly like the bare
command. -/
theorem c4_trimming_witness :
    telegram_webhook db1 g0 st0 0 (updOf 1 ("  /start  ")) =
      telegram_webhook db1 g0 st0 0 (updOf 1 ("/start")) :=
  c4_trimming_invariant db1 g0 st0 0 1 ("  /start  ") ("/start") (by decide)

/-- C5 counterexample: in awaiting_password with the scratch account number
missing, the next message is indeed answered with the session-expired reply,
but the chat is NOT returned to ANONYMOUS: the session row is left untouched,
so the state read on the next interaction is still awaiting_password. -/
theorem c5_state_not_cleared_counterexample :
    get_user_state (telegram_webhook db1 g0 stP 0 (updOf 1 ("pw"))).1 1 0 =
      some ("awaiting_password") ∧
    (telegram_webhook db1 g0 stP 0 (updOf 1 ("pw"))).2 =
      ({ msgs := [(1, sessionExpiredBeginMsg)], gemini_calls := 0, txn_queries := 0 },
        Outcome.ack ("session_expired")) := by
  decide

/-- C5 amended: in state awaiting_password with the scratch account number
missing or expired, any message other than slash-start is answered with the
session-expired reply and the whole store is left unchanged — the session is
not cleared, so the chat stays in awaiting_password until the row expires. -/
theorem c5_expired_scratch_replies_and_keeps_state (db : Db) (g : Nat → HttpResult)
    (st : Store) (now : Nat) (chat : ChatId) (t : String)
    (hstart : pyStrip t ≠ "/start")
    (hstate : get_user_state st chat now = some ("awaiting_password"))
    (htemp : (get_temp_data st chat ("account_number") now).getD ("") = "") :
    telegram_webhook db g st now (updOf chat t) =
      (st, { msgs := [(chat, sessionExpiredBeginMsg)], gemini_calls := 0, txn_queries := 0 },
        Outcome.ack ("session_expired")) := by
  show wrapBody (handleText db g st now chat (pyStrip t)) = _
  unfold handleText
  rw [if_neg hstart]
  simp [hstate, htemp, wrapBody, sendMsg, noEffects]

/-- C5 witness: the amended behavior at the concrete store stP. -/
theorem c5_expired_scratch_witness :
    telegram_webhook db1 g0 stP 0 (updOf 1 ("pw")) =
      (stP, { msgs := [(1, sessionExpiredBeginMsg)], gemini_calls := 0, txn_queries := 0 },
        Outcome.ack ("session_expired")) :=
  c5_expired_scratch_replies_and_keeps_state db1 g0 stP 0 1 ("pw") (by decide) (by decide)
    (by decide)

/-- C6 counterexample: for a malformed payload whose message lacks the chat
object, the KeyError is caught, but the except block itself references the
unbound chat_id, so the handler raises again: no reply is sent and the
middleware answers with a transport-level 500 instead of a structured
acknowledgment. -/
theorem c6_malformed_update_escapes :
    telegram_webhook db1 g0 st0 0 updNoChat = (st0, noEffects, Outcome.serverError) := rfl

/-- C6 amended: whenever the inbound message does carry a chat id, the handler
always returns a structured acknowledgment (every internal failure is caught
and answered with the generic error reply); only an update whose message lacks
the chat id escapes the handler and is turned into a transport-level error
response by the middleware.  State writes performed before a failure are not
rolled back. -/
theorem c6_ack_when_chat_bound (db : Db) (g : Nat → HttpResult) (st : Store) (now : Nat)
    (m : TgMessage) (c : ChatId) (hc : m.chat = some c) :
    ∃ s, (telegram_webhook db g st now { message := some m }).2.2 = Outcome.ack s := by
  have hb : telegram_webhook db g st now { message := some m } =
      wrapBody (match m.chat with
        | none => BodyResult.exn st noEffects none
        | some chat_id => handleText db g st now chat_id (pyStrip (m.text.getD ("")))) := rfl
  rw [hb, hc]
  show ∃ s, (wrapBody (handleText db g st now c (pyStrip (m.text.getD (""))))).2.2
      = Outcome.ack s
  unfold handleText
  dsimp only
  repeat' split
  all_goals exact ⟨_, rfl⟩

/-- C6 witness: a message with a chat id is always acknowledged. -/
theorem c6_ack_witness :
    ∃ s, (telegram_webhook db1 g0 st0 0 (updOf 1 ("hi"))).2.2 = Outcome.ack s :=
  c6_ack_when_chat_bound db1 g0 st0 0 { chat := some 1, text := some ("hi") } 1 rfl

theorem mem_insertDesc {t x : Txn} {l : List Txn} :
    x ∈ insertDesc t l ↔ x = t ∨ x ∈ l := by
  induction l with
  | nil => simp [insertDesc]
  | cons u us ih =>
    simp only [insertDesc]
    split <;> simp only [List.mem_cons, ih] <;> tauto

theorem sorted_insertDesc {t : Txn} {l : List Txn} (h : l.Sorted dateGE) :
    (insertDesc t l).Sorted dateGE := by
  induction l with
  | nil => simp [insertDesc]
  | cons u us ih =>
    rw [List.sorted_cons] at h
    simp only [insertDesc]
    split
    case isTrue hle =>
      rw [List.sorted_cons]
      refine ⟨?_, ?_⟩
      · intro b hb
        rcases List.mem_cons.mp hb with rfl | hbus
        · exact hle
        · exact Nat.le_trans (h.1 b hbus) hle
      · rw [List.sorted_cons]
        exact h
    case isFalse hgt =>
      rw [List.sorted_cons]
      refine ⟨?_, ih h.2⟩
      intro b hb
      rcases mem_insertDesc.mp hb with rfl | hbus
      · exact le_of_not_le hgt
      · exact h.1 b hbus

theorem sorted_sortDesc (l : List Txn) : (sortDesc l).Sorted dateGE := by
  induction l with
  | nil => simp [sortDesc]
  | cons t ts ih => exact sorted_insertDesc ih

theorem mem_sortDesc {x : Txn} {l : List Txn} : x ∈ sortDesc l ↔ x ∈ l := by
  induction l with
  | nil => simp [sortDesc]
  | cons t ts ih => simp [sortDesc, mem_insertDesc, ih]

theorem str_append_assoc (a b c : String) : a ++ b ++ c = a ++ (b ++ c) := by
  cases a with | mk da =>
  cases b with | mk db =>
  cases c with | mk dc =>
  show String.mk ((da ++ db) ++ dc) = String.mk (da ++ (db ++ dc))
  rw [List.append_assoc]

theorem str_append_empty (a : String) : a ++ ("") = a := by
  cases a
  simp only [HAppend.hAppend, Append.append, String.append]
  simp

theorem foldl_txnBlocks (l : List Txn) (acc : String) :
    l.foldl (fun m t => m ++ txnBlock t) acc = acc ++ joinBlocks l := by
  induction l generalizing acc with
  | nil => simp [joinBlocks, str_append_empty]
  | cons t ts ih =>
    simp only [List.foldl_cons, joinBlocks]
    rw [ih, str_append_assoc]

/-- C7: the result of a transactions request, as produced by
get_user_transactions and rendered by format_transaction_message: an empty
result set yields the literal no-transactions reply; a non-empty one yields a
single message made of the header followed by one block per record (each block
carries id, amount, type, method, description, balance and timestamp and ends
with a blank line), in the order returned by the query, which is newest first,
restricted to the requested customer and at most the requested limit. -/
theorem c7_transactions_listing (db : Db) (cid : Nat) :
    (get_user_transactions db cid 5 = [] →
      format_transaction_message (get_user_transactions db cid 5) =
        "No recent transactions found.") ∧
    (get_user_transactions db cid 5 ≠ [] →
      format_transaction_message (get_user_transactions db cid 5) =
        "Recent Transactions:\n\n" ++ joinBlocks (get_user_transactions db cid 5)) ∧
    (get_user_transactions db cid 5).Sorted dateGE ∧
    (∀ t ∈ get_user_transactions db cid 5, t.customer_id = cid) ∧
    (get_user_transactions db cid 5).length ≤ 5 := by
  refine ⟨?_, ?_, ?_, ?_, ?_⟩
  · intro he
    rw [he]
    rfl
  · intro hne
    rcases hl : get_user_transactions db cid 5 with _ | ⟨t, ts⟩
    · exact absurd hl hne
    · exact foldl_txnBlocks (t :: ts) ("Recent Transactions:\n\n")
  · simp only [get_user_transactions]
    exact List.Pairwise.sublist (List.take_sublist _ _) (sorted_sortDesc _)
  · intro t ht
    simp only [get_user_transactions] at ht
    have h1 := mem_sortDesc.mp (List.take_subset _ _ ht)
    have h2 := List.mem_filter.mp h1
    simpa using h2.2
  · simp only [get_user_transactions, List.length_take]
    omega

/-- C7 witness: with two stored transactions (inserted oldest first) the reply
is the header plus the rendered blocks, newest first. -/
theorem c7_transactions_witness :
    get_user_transactions db2 1 5 ≠ [] ∧
    format_transaction_message (get_user_transactions db2 1 5) =
      "Recent Transactions:\n\n" ++ joinBlocks (get_user_transactions db2 1 5) ∧
    (get_user_transactions db2 1 5).Sorted dateGE :=
  ⟨by decide, (c7_transactions_listing db2 1).2.1 (by decide),
    (c7_transactions_listing db2 1).2.2.1⟩

/-- C8: when every one of the three attempts fails with a RequestException or
a non-200 response, call_gemini_api posts exactly 3 times (the fixed bounded
retry count), sleeps the exponential backoff delays (2 to the power of the
attempt index; the delay after the final attempt is skipped when that attempt
raised), and returns one of the two generic failure texts instead of raising:
the error-processing reply when the last attempt raised, the
temporarily-unavailable reply otherwise. -/
theorem c8_gemini_bounded_retry (g : Nat → HttpResult)
    (h : ∀ i, i < 3 → g i = HttpResult.exn ∨
      ∃ s c, g i = HttpResult.resp s c ∧ s ≠ 200) :
    ((call_gemini_api g).result =
        Except.ok ("Error processing query. Please try again later.") ∨
      (call_gemini_api g).result = Except.ok ("Service temporarily unavailable.")) ∧
    (call_gemini_api g).posts = 3 ∧
    ((call_gemini_api g).sleeps = [1, 2] ∨ (call_gemini_api g).sleeps = [1, 2, 4]) := by
  have h0 := h 0 (by omega)
  have h1 := h 1 (by omega)
  have h2 := h 2 (by omega)
  have e3 : geminiAttempt g 3 3 =
      { result := Except.ok ("Service temporarily unavailable."), posts := 0, sleeps := [] } := by
    unfold geminiAttempt
    norm_num
  rcases h0 with h0 | ⟨s0, c0, h0, hs0⟩ <;> rcases h1 with h1 | ⟨s1, c1, h1, hs1⟩ <;>
    rcases h2 with h2 | ⟨s2, c2, h2, hs2⟩ <;>
    simp_all [call_gemini_api, geminiAttempt, e3]

/-- C8 witness: with every attempt raising a RequestException, the call makes
3 posts, sleeps 1 and 2 seconds, and returns the generic failure text. -/
theorem c8_gemini_retry_witness :
    ((call_gemini_api g0).result =
        Except.ok ("Error processing query. Please try again later.") ∨
      (call_gemini_api g0).result = Except.ok ("Service temporarily unavailable.")) ∧
    (call_gemini_api g0).posts = 3 ∧
    ((call_gemini_api g0).sleeps = [1, 2] ∨ (call_gemini_api g0).sleeps = [1, 2, 4]) :=
  c8_gemini_bounded_retry g0 (fun _ _ => Or.inl rfl)

/-- C9 counterexample: in a live AUTHENTICATED session with a stored payload,
an unrecognized message is NOT answered with help text: reading the session
raises NameError (json is not imported in src/main.py), so the handler answers
with the generic error reply under the error status. -/
theorem c9_no_help_text_counterexample :
    (telegram_webhook db1 g0 stA 0 (updOf 1 ("hello"))).2 =
      ({ msgs := [(1, genericErrorMsg)], gemini_calls := 0, txn_queries := 0 },
        Outcome.ack ("error")) := by
  decide

/-- C9 amended: for any chat whose session row is live with state
authenticated (whatever the stored payload, even null), every message other
than slash-start is answered with the generic error reply and the error
acknowledgment, because get_user_session raises NameError on json.loads; the
store is left unchanged, so the state does remain AUTHENTICATED. -/
theorem c9_authenticated_generic_error (db : Db) (g : Nat → HttpResult) (st : Store)
    (now : Nat) (chat : ChatId) (t : String) (payload : Option String) (e : Nat)
    (hrow : st.sessions chat =
      some { state := some ("authenticated"), user_data := payload, expires_at := e })
    (hlive : now < e) (hstart : pyStrip t ≠ "/start") :
    telegram_webhook db g st now (updOf chat t) =
      (st, { msgs := [(chat, genericErrorMsg)], gemini_calls := 0, txn_queries := 0 },
        Outcome.ack ("error")) := by
  have hst : get_user_state st chat now = some ("authenticated") := by
    simp [get_user_state, hrow, hlive]
  have hgs : get_user_session st chat now = Except.error PyErr.nameError := by
    simp [get_user_session, hrow, hlive, json_loads, Except.map]
  show wrapBody (handleText db g st now chat (pyStrip t)) = _
  unfold handleText
  rw [if_neg hstart]
  simp [hst, hgs, wrapBody, sendMsg, noEffects]

/-- C9 witness: the amended behavior at the concrete store stA. -/
theorem c9_authenticated_witness :
    telegram_webhook db1 g0 stA 0 (updOf 1 ("hello")) =
      (stA, { msgs := [(1, genericErrorMsg)], gemini_calls := 0, txn_queries := 0 },
        Outcome.ack ("error")) :=
  c9_authenticated_generic_error db1 g0 stA 0 1 ("hello") (some ("stored-payload")) 1000
    rfl (by decide) (by decide)

/-- C10: in a live AUTHENTICATED session with a stored payload, the bare
slash-query message indeed triggers no Answer-Service call, no transaction
fetch and no session-store write, but it is answered with the generic error
reply instead of the please-provide-a-query prompt: get_user_session raises
NameError (json is not imported in src/main.py) before the query branch is
reached. -/
theorem c10_empty_query_no_calls :
    telegram_webhook db1 g0 stA 0 (updOf 1 ("/query")) =
      (stA, { msgs := [(1, genericErrorMsg)], gemini_calls := 0, txn_queries := 0 },
        Outcome.ack ("error")) := rfl
